import Mathlib

/-!
Shallow embedding of `src/backend/main.py` (MedTech AI backend, FastAPI).

The module is a half-resolved merge: a leftover `=======` conflict marker at
line 242 separates a truncated first `/generate` route from the live second
one, and the module never imports `requests`, `HTTPException`, `base64` or
`subprocess`, nor defines a variable `key`.  As a consequence the live route
is broken at its first step: `generate_script` evaluates the headers
f-string, which reads the undefined global `key` (main.py:85), and raises
`NameError` on every call before any HTTP request is issued; the route
therefore never reaches the VEO step and every request is answered by the
global exception handler with a 500 JSON reply.  `generate_audio`
(main.py:164) and `ffmpeg_merge` (main.py:204) likewise raise `NameError` on
the never-imported `requests` before issuing any request or building the
ffmpeg command.  The VEO step `generate_video_with_audio`, the request model
`RequestData`, the subtitle builder `create_srt` and the URL construction use
only defined names and are embedded as they execute.  External effects (the
mocked HTTP responses the dead calls would receive, operation polling, uuid
hex values, environment variables) are passed in explicitly through an `Env`
record; outbound calls are recorded in a trace of `ApiCall` events.
-/

namespace MedtechAI

instance {ε α : Type} [DecidableEq ε] [DecidableEq α] : DecidableEq (Except ε α) := by
  intro a b
  cases a with
  | ok x =>
    cases b with
    | ok y =>
      exact if h : x = y then isTrue (by rw [h]) else isFalse (fun hc => h (by cases hc; rfl))
    | error y => exact isFalse (fun hc => by cases hc)
  | error x =>
    cases b with
    | ok y => exact isFalse (fun hc => by cases hc)
    | error y =>
      exact if h : x = y then isTrue (by rw [h]) else isFalse (fun hc => h (by cases hc; rfl))

/-- Embedding of `os.path.basename` on a slash-separated path: the part after
the last slash. -/
def basename (p : String) : String :=
  String.mk ((p.toList.reverse.takeWhile (fun c => c ≠ '/')).reverse)

/-- Embedding of `os.path.join dir name` for a relative `name`. -/
def path_join (d name : String) : String := d ++ "/" ++ name

/-- Embedding of `tempfile.gettempdir()`, the directory mounted at the
`/videos` static route (`app.mount("/videos", StaticFiles(directory=temp_dir))`). -/
def temp_dir : String := "/tmp"

/-- Python truthiness of an optional string (`os.getenv` result): `None` and
the empty string are falsy. -/
def truthy : Option String → Bool
  | none => false
  | some s => s ≠ ""

/-- Python's `f"{n:02d}"` format for a natural number: pad to two digits with
a leading zero, but render three or more digits unchanged. -/
def fmt02 (n : Nat) : String :=
  if n < 10 then "0" ++ toString n else toString n

/-- Python's `str.split(". ")` on the character list: split on every
occurrence of the two-character separator. -/
def splitDotSpace : List Char → List (List Char)
  | [] => [[]]
  | '.' :: ' ' :: rest => [] :: splitDotSpace rest
  | c :: rest =>
    match splitDotSpace rest with
    | [] => [[c]]
    | seg :: segs => (c :: seg) :: segs

/-- Python's `script.split(". ")`. -/
def pySplitDotSpace (s : String) : List String :=
  (splitDotSpace s.toList).map String.mk

/-- One outbound call the backend could make.  `geminiPost` and
`sdkGenerateContent` name calls that appear in the text of `generate_script`
but are unreachable (the `NameError` fires first); `edenPost` and `httpGet`
name the equally unreachable calls of `generate_audio` and `ffmpeg_merge`;
the VEO calls are the only ones the module could actually issue. -/
inductive ApiCall where
  | geminiPost (body : String)
  | sdkGenerateContent (prompt : String)
  | veoGenerate (prompt : String)
  | veoPoll (opName : String)
  | veoDownload
  | edenPost (text : String)
  | httpGet (url : String)
  deriving DecidableEq

/-- The fields of the Gemini HTTP response that the dead POST of
`generate_script` would read: `r.status_code`,
`r.json()["candidates"][0]["content"]["parts"][0]["text"]`, and `r.text`.
The live code crashes before issuing the POST, so the response is never
consulted. -/
structure GeminiResponse where
  status : Nat
  candidateText : String
  bodyText : String

/-- The external world seen by one request: the mocked Gemini response the
dead POST would receive (never read by the live code), the text the dead SDK
path would return (never read), the VEO operation (an optional raised SDK
error, the initial `done` flag, the operation name, the `done` flag reported
by each poll, the uuid hex of the saved file), and the
`RENDER_EXTERNAL_HOSTNAME` environment variable. -/
structure Env where
  gemini : String → GeminiResponse
  sdkText : String
  veoError : Option String
  veoInitialDone : Bool
  veoOpName : String
  veoPolls : Nat → Bool
  veoHex : String
  hostname : Option String

/-- The request model (`RequestData(BaseModel)`): `device_name: str`,
`purpose: str`, `language: str = "en"`. -/
structure RequestData where
  device_name : String
  purpose : String
  language : String
  deriving DecidableEq

/-- Pydantic validation of `RequestData` from a JSON object, given as a field
list: `device_name` and `purpose` are required, `language` defaults to
`"en"`, and (pydantic default behaviour) unknown extra fields are ignored. -/
def parseRequestData (fields : List (String × String)) : Except String RequestData :=
  match fields.lookup "device_name", fields.lookup "purpose" with
  | some d, some p =>
      Except.ok { device_name := d, purpose := p,
                  language := (fields.lookup "language").getD "en" }
  | _, _ => Except.error "validation error"

/-- The f-string prompt template of `generate_script` (main.py:77-82).  The
prompt is built before the crash, so this much of the function does run. -/
def gemini_prompt (device purpose lang : String) : String :=
  "\nWrite a 60-second medical explainer script about \"" ++ device ++
  "\" \nfor the purpose \"" ++ purpose ++
  "\".\nTone: educational, simple.\nLanguage: " ++ lang ++ ".\n"

/-- Python's `str()` of the `NameError` raised by reading the undefined
global `key` (main.py:85); `{"error": str(exc)}` is what the global exception
handler returns for it. -/
def nameErrorKey : String := "name \x27key\x27 is not defined"

/-- Python's `str()` of the `NameError` raised by resolving the never-imported
name `requests` (main.py:164 and main.py:204). -/
def nameErrorRequests : String := "name \x27requests\x27 is not defined"

/-- Step 1, `generate_script(device, purpose, lang)` as it actually executes:
after building the prompt and the endpoint URL, the headers f-string reads
the global `key`, which is defined nowhere in the module (and `requests` and
`HTTPException` are never imported), so every call raises
`NameError: name 'key' is not defined` before the POST is issued.  The
status check, the `return` of the stripped candidate text, and the SDK call
after the `return` are all unreachable; the mocked Gemini response and SDK
text in `Env` are never read, and no call is added to the trace. -/
def generate_script (env : Env) (device purpose lang : String) :
    List ApiCall × Except String String :=
  ([], Except.error nameErrorKey)

/-- The `while not operation.done` polling loop of `generate_video_with_audio`:
`k` polls have been made so far and `done` is the last reported flag; returns
the total number of poll calls, or `none` when the fuel runs out while the
Python loop would still be spinning. -/
def veo_poll_loop (polls : Nat → Bool) : Bool → Nat → Nat → Option Nat
  | done, k, 0 => if done then some k else none
  | done, k, fuel + 1 =>
      if done then some k else veo_poll_loop polls (polls k) (k + 1) fuel

/-- Step 2, `generate_video_with_audio(prompt_text)`: start a VEO operation,
poll it until done, download the result and save it under
`temp_dir/veo_<hex>.mp4`.  This step uses only defined names (`client`,
`types`, `time`, `os`, `uuid`) and would run as written if it were ever
reached.  An SDK failure surfaces as a raised error; a loop that never
finishes within the fuel is `none`. -/
def generate_video_with_audio (env : Env) (fuel : Nat) (prompt_text : String) :
    Option (List ApiCall × Except String String) :=
  match env.veoError with
  | some e => some ([ApiCall.veoGenerate prompt_text], Except.error e)
  | none =>
    match veo_poll_loop env.veoPolls env.veoInitialDone 0 fuel with
    | none => none
    | some n =>
        some (ApiCall.veoGenerate prompt_text ::
                ((List.range n).map (fun _ => ApiCall.veoPoll env.veoOpName) ++
                 [ApiCall.veoDownload]),
              Except.ok (path_join temp_dir ("veo_" ++ env.veoHex ++ ".mp4")))

/-- Step 5, `generate_audio(script, eden_key)` as it actually executes: after
building the payload and headers from its parameters, `requests.post`
resolves the never-imported name `requests`, so every call raises
`NameError: name 'requests' is not defined` before any TTS request is
issued; no call is added to the trace. -/
def generate_audio (script eden_key : String) :
    List ApiCall × Except String String :=
  ([], Except.error nameErrorRequests)

/-- The loop body of `create_srt`: given the accumulated text and
`current_time`, append the entry for the enumerated segment `il` and advance
`current_time` by 2. -/
def create_srt_step (acc : String × Nat) (il : Nat × String) : String × Nat :=
  let start := "00:00:" ++ fmt02 acc.2 ++ ",000"
  let endT := "00:00:" ++ fmt02 (acc.2 + 2) ++ ",000"
  (acc.1 ++ toString (il.1 + 1) ++ "\n" ++ start ++ " --> " ++ endT ++
     "\n" ++ il.2 ++ "\n\n",
   acc.2 + 2)

/-- The body of one subtitle entry as `create_srt` renders it at index `i`
with running time `2*i`: entry number `i+1`, start `2*i`, end `2*i+2`, both
written into the seconds field of the `00:00:SS,000` pattern. -/
def srt_entry (i : Nat) (line : String) : String :=
  toString (i + 1) ++ "\n" ++ ("00:00:" ++ fmt02 (2 * i) ++ ",000") ++ " --> " ++
  ("00:00:" ++ fmt02 (2 * i + 2) ++ ",000") ++ "\n" ++ line ++ "\n\n"

/-- Concatenation of `srt_entry` over the segments, numbering from `i`. -/
def srt_entries : Nat → List String → String
  | _, [] => ""
  | i, line :: rest => srt_entry i line ++ srt_entries (i + 1) rest

/-- Step 6, the string built by `create_srt(script)`: split the script on
`". "` and accumulate one numbered, timestamped entry per segment, advancing
`current_time` by 2 seconds per entry.  `create_srt` uses only defined
names, so this is the string it would write. -/
def create_srt_content (script : String) : String :=
  ((pySplitDotSpace script).enum.foldl create_srt_step ("", 0)).1

/-- The command list written at main.py:208-217.  It is dead code:
`ffmpeg_merge` raises `NameError` at the `requests.get` above it, so this
list is never built and `subprocess.run` (`subprocess` is also never
imported) never executes. -/
def ffmpeg_cmd (ffmpeg_path raw_video_path audio_path srt_path final_path : String) :
    List String :=
  [ffmpeg_path,
   "-i", raw_video_path,
   "-i", audio_path,
   "-vf", "subtitles=\x27" ++ srt_path ++ "\x27",
   "-c:v", "libx264",
   "-c:a", "aac",
   "-shortest",
   final_path]

/-- The argument list the spec states for the merge command: the configured
ffmpeg binary, `-i <video>`, `-i <audio>`, `-vf subtitles=<srt>` (the path
single-quoted for the filter), `-c:v libx264`, `-c:a aac`, `-shortest`,
`<output>`, varying only in the file paths. -/
def ffmpeg_cmd_spec (ffmpeg_path video audio srt output : String) : List String :=
  [ffmpeg_path, "-i", video, "-i", audio,
   "-vf", "subtitles=\x27" ++ srt ++ "\x27",
   "-c:v", "libx264", "-c:a", "aac", "-shortest", output]

/-- Step 7, `ffmpeg_merge(video_url, audio_path, srt_path)` as it actually
executes: the raw download path is computed, then `requests.get(video_url)`
resolves the never-imported name `requests`, so every call raises
`NameError: name 'requests' is not defined` before the video is fetched;
the `cmd` list below it is never built and ffmpeg is never invoked.  No call
is added to the trace. -/
def ffmpeg_merge (video_url audio_path srt_path : String) :
    List ApiCall × Except String String :=
  ([], Except.error nameErrorRequests)

/-- The public URL built by the live route from `RENDER_EXTERNAL_HOSTNAME`
and the saved video path (Python truthiness on the env value).  The
expression uses only defined names but sits after the video step, so it is
never reached. -/
def public_video_url (hostname : Option String) (video_path : String) : String :=
  if truthy hostname then
    "https://" ++ hostname.getD "" ++ "/videos/" ++ basename video_path
  else
    "/videos/" ++ basename video_path

/-- Result of one run of the route body: a JSON object, or a raised
exception's message. -/
inductive Outcome where
  | ok (resp : List (String × String))
  | err (msg : String)
  deriving DecidableEq

/-- The live `POST /generate` route (the second definition in the file, which
shadows the truncated first one): generate the script, generate the video,
build the public URL, and return `{"script": ..., "video_url": ...}`.  A
raised error is the `err` outcome; `none` is the diverging polling loop.
Because `generate_script` always raises, only the error branch of the first
match is ever taken: the video step, the URL construction and the success
return are dead code. -/
def generate (env : Env) (fuel : Nat) (data : RequestData) :
    Option (List ApiCall × Outcome) :=
  let s := generate_script env data.device_name data.purpose data.language
  match s.2 with
  | Except.error e => some (s.1, Outcome.err e)
  | Except.ok script =>
    match generate_video_with_audio env fuel script with
    | none => none
    | some (t2, Except.error e) => some (s.1 ++ t2, Outcome.err e)
    | some (t2, Except.ok video_path) =>
        some (s.1 ++ t2,
              Outcome.ok [("script", script),
                          ("video_url", public_video_url env.hostname video_path)])

/-- An HTTP reply: status code and JSON body as a field list. -/
structure HttpReply where
  status : Nat
  body : List (String × String)
  deriving DecidableEq

/-- The route as seen by the client: a returned dict is a 200 JSON reply; any
exception raised inside the handler is caught by `global_exception_handler`
(main.py:52-59), which replies 500 with `{"error": str(exc)}`. -/
def handleRequest (env : Env) (fuel : Nat) (data : RequestData) : Option HttpReply :=
  match generate env fuel data with
  | none => none
  | some (_, Outcome.ok resp) => some ⟨200, resp⟩
  | some (_, Outcome.err e) => some ⟨500, [("error", e)]⟩

/-- The field names of a successful JSON response of `generate`, `none` when
the run did not succeed. -/
def responseKeys (r : Option (List ApiCall × Outcome)) : Option (List String) :=
  match r with
  | some (_, Outcome.ok resp) => some (resp.map Prod.fst)
  | _ => none

/-- Lookup of one field in a successful JSON response of `generate`: `none`
when the run did not succeed, `some none` when it succeeded without that
field. -/
def responseLookup (r : Option (List ApiCall × Outcome)) (k : String) :
    Option (Option String) :=
  match r with
  | some (_, Outcome.ok resp) => some (resp.lookup k)
  | _ => none

/-- The number of outbound calls recorded by a completed video step. -/
def videoCallCount (r : Option (List ApiCall × Except String String)) : Nat :=
  match r with
  | some (tr, _) => tr.length
  | none => 0

/-- An environment in which every mocked external service is healthy: the
mocked Gemini response has status 200 with text `" hello "` and the VEO
operation is done immediately.  Even here the live route cannot succeed,
since the `NameError` fires before any of these responses could be
consulted. -/
def envOk : Env :=
  { gemini := fun _ => ⟨200, " hello ", ""⟩
    sdkText := ""
    veoError := none
    veoInitialDone := true
    veoOpName := "op"
    veoPolls := fun _ => true
    veoHex := "a"
    hostname := none }

/-- An environment in which the VEO operation is not done initially and every
poll reports done. -/
def envPoll : Env := { envOk with veoInitialDone := false }

/-! ## Helper lemmas -/

theorem create_srt_fold (lines : List String) : ∀ (j : Nat) (s : String),
    List.foldl create_srt_step (s, 2 * j) (List.enumFrom j lines) =
      (s ++ srt_entries j lines, 2 * j + 2 * lines.length) := by
  induction lines with
  | nil =>
    intro j s
    simp [srt_entries]
  | cons x xs ih =>
    intro j s
    rw [show List.enumFrom j (x :: xs) = (j, x) :: List.enumFrom (j + 1) xs from rfl,
        List.foldl_cons]
    have hstep : create_srt_step (s, 2 * j) (j, x) = (s ++ srt_entry j x, 2 * (j + 1)) := by
      apply Prod.ext
      · simp [create_srt_step, srt_entry, String.append_assoc]
      · simp [create_srt_step]; ring
    rw [hstep, ih (j + 1) (s ++ srt_entry j x)]
    apply Prod.ext
    · simp [srt_entries, String.append_assoc]
    · simp [List.length_cons]; ring

theorem video_trace_length (env : Env) (fuel : Nat) (pt : String) (tv : List ApiCall)
    (r : Except String String) (n : Nat) (hne : env.veoError = none)
    (hp : veo_poll_loop env.veoPolls env.veoInitialDone 0 fuel = some n)
    (h : generate_video_with_audio env fuel pt = some (tv, r)) :
    tv.length = n + 2 := by
  unfold generate_video_with_audio at h
  rw [hne, hp] at h
  simp only [Option.some.injEq, Prod.mk.injEq] at h
  obtain ⟨htv, -⟩ := h
  subst htv
  simp [List.length_map, List.length_range]

/-! ## Claims -/

/-- Claim C1: the claim says every exception-free run of `POST /generate`
returns a JSON object with exactly the keys `script` and `video_url`; in the
code no run is exception-free — `generate_script` raises `NameError` on the
undefined `key` before any call, so no success response ever exists for the
keys to be compared against. -/
theorem generate_never_succeeds :
    ∀ (env : Env) (fuel : Nat) (data : RequestData),
      responseKeys (generate env fuel data) = none :=
  fun _ _ _ => rfl

/-- Claim C2: the claim says external-API failures are caught and surfaced as
a generic 500 or replaced by fallbacks; in the code no external-API call is
ever issued — every request fails first with the `NameError` on `key`, which
the global exception handler catches and answers with the generic 500 error
JSON, on every environment, fuel and request. -/
theorem namerror_caught_as_500 :
    ∀ (env : Env) (fuel : Nat) (data : RequestData),
      handleRequest env fuel data = some ⟨500, [("error", nameErrorKey)]⟩ :=
  fun _ _ _ => rfl

/-- Claim C3: the claim says every successful response carries the script
text, a compliance flag, a video URL and a research echo; in the code no
request ever succeeds, so none of those fields — not even `script` — is ever
returned. -/
theorem no_successful_response :
    (∀ (env : Env) (fuel : Nat) (data : RequestData),
      responseLookup (generate env fuel data) "compliance" = none) ∧
    (∀ (env : Env) (fuel : Nat) (data : RequestData),
      responseLookup (generate env fuel data) "research" = none) ∧
    (∀ (env : Env) (fuel : Nat) (data : RequestData),
      responseLookup (generate env fuel data) "script" = none) :=
  ⟨fun _ _ _ => rfl, fun _ _ _ => rfl, fun _ _ _ => rfl⟩

/-- Claim C4 counterexample: supplying an API key override with the request
changes nothing — the parsed `RequestData` is identical with and without the
extra field, so the override cannot be used, and the model has no API key
fields. -/
theorem api_key_override_ignored :
    parseRequestData
        [("device_name", "ECG"), ("purpose", "training"), ("gemini_api_key", "OVERRIDE")] =
      parseRequestData [("device_name", "ECG"), ("purpose", "training")] ∧
    parseRequestData
        [("device_name", "ECG"), ("purpose", "training"), ("gemini_api_key", "OVERRIDE")] =
      Except.ok { device_name := "ECG", purpose := "training", language := "en" } := by
  decide

/-- Claim C4 (amended): the request model accepts a device name, a purpose
and an optional language defaulting to `"en"`; it has no API key override
fields, and any unknown extra field (such as an API key override) is accepted
but ignored. -/
theorem requestData_parse_behavior (d p v k : String) (kvs : List (String × String))
    (hk1 : k ≠ "device_name") (hk2 : k ≠ "purpose") (hk3 : k ≠ "language") :
    parseRequestData ((k, v) :: kvs) = parseRequestData kvs ∧
    parseRequestData [("device_name", d), ("purpose", p)] =
      Except.ok { device_name := d, purpose := p, language := "en" } ∧
    parseRequestData [("device_name", d), ("purpose", p), ("language", v)] =
      Except.ok { device_name := d, purpose := p, language := v } := by
  refine ⟨?_, ?_, ?_⟩
  · simp [parseRequestData, List.lookup, hk1, hk2, hk3,
      show ("device_name" == k) = false by simpa using fun h => hk1 h.symm,
      show ("purpose" == k) = false by simpa using fun h => hk2 h.symm,
      show ("language" == k) = false by simpa using fun h => hk3 h.symm]
  · simp [parseRequestData, List.lookup]
  · simp [parseRequestData, List.lookup]

/-- Witness: `requestData_parse_behavior` at a concrete request: a
`gemini_api_key` field is ignored and the two-field request parses with the
default language. -/
theorem requestData_parse_behavior_witness :
    parseRequestData
        [("gemini_api_key", "K"), ("device_name", "ECG"), ("purpose", "demo")] =
      parseRequestData [("device_name", "ECG"), ("purpose", "demo")] ∧
    parseRequestData [("device_name", "ECG"), ("purpose", "demo")] =
      Except.ok { device_name := "ECG", purpose := "demo", language := "en" } := by
  have h := requestData_parse_behavior "ECG" "demo" "K" "gemini_api_key"
    [("device_name", "ECG"), ("purpose", "demo")]
    (by decide) (by decide) (by decide)
  exact ⟨h.1, h.2.1⟩

/-- Claim C5: the claim orders the external calls of one request (script
before video, return after all calls); in the code a request makes zero
external calls — the script step raises `NameError` before its POST, so the
VEO step is never reached and the trace of every request is empty. -/
theorem request_trace_empty :
    ∀ (env : Env) (fuel : Nat) (data : RequestData),
      (generate env fuel data).map (fun r => r.1) = some [] :=
  fun _ _ _ => rfl

/-- Claim C6 counterexample: the video-generation step does not issue at most
one outbound request — with an operation that reports done on the first poll
it issues three (generate, one poll, one download). -/
theorem video_step_multiple_calls :
    videoCallCount (generate_video_with_audio envPoll 1 "script text") = 3 ∧
    ¬ videoCallCount (generate_video_with_audio envPoll 1 "script text") ≤ 1 := by
  decide

/-- Claim C6 (amended): no pipeline step performs exactly one outbound call —
the video-generation step issues one initiating SDK request, one request per
poll of the not-yet-done operation, and one download (at least two calls),
while the script-generation, TTS and merge steps issue no outbound request at
all: each raises `NameError` on an undefined name (`key`, `requests`) before
its request is made. -/
theorem step_call_counts :
    (∀ env d p l, (generate_script env d p l).1 = ([] : List ApiCall) ∧
        (generate_script env d p l).2 = Except.error nameErrorKey) ∧
    (∀ script eden_key, (generate_audio script eden_key).1 = ([] : List ApiCall) ∧
        (generate_audio script eden_key).2 = Except.error nameErrorRequests) ∧
    (∀ v a s, (ffmpeg_merge v a s).1 = ([] : List ApiCall) ∧
        (ffmpeg_merge v a s).2 = Except.error nameErrorRequests) ∧
    (∀ env fuel pt tv r n, env.veoError = none →
        veo_poll_loop env.veoPolls env.veoInitialDone 0 fuel = some n →
        generate_video_with_audio env fuel pt = some (tv, r) →
        tv.length = n + 2) :=
  ⟨fun _ _ _ _ => ⟨rfl, rfl⟩, fun _ _ => ⟨rfl, rfl⟩, fun _ _ _ => ⟨rfl, rfl⟩,
   fun env fuel pt tv r n hne hp h => video_trace_length env fuel pt tv r n hne hp h⟩

/-- Witness: `step_call_counts` at concrete runs: zero calls from the script,
TTS and merge steps, and three calls from a video run with one poll. -/
theorem step_call_counts_witness :
    (generate_script envOk "d" "p" "en").1 = ([] : List ApiCall) ∧
    (generate_audio "some script" "eden-key").1 = ([] : List ApiCall) ∧
    (ffmpeg_merge "http://u" "/tmp/a.mp3" "/tmp/s.srt").1 = ([] : List ApiCall) ∧
    ([ApiCall.veoGenerate "s", ApiCall.veoPoll "op", ApiCall.veoDownload] :
        List ApiCall).length = 1 + 2 :=
  ⟨(step_call_counts.1 envOk "d" "p" "en").1,
   (step_call_counts.2.1 "some script" "eden-key").1,
   (step_call_counts.2.2.1 "http://u" "/tmp/a.mp3" "/tmp/s.srt").1,
   step_call_counts.2.2.2 envPoll 1 "s"
     [ApiCall.veoGenerate "s", ApiCall.veoPoll "op", ApiCall.veoDownload]
     (Except.ok "/tmp/veo_a.mp4") 1 (by decide) (by decide) (by decide)⟩

/-- Claim C7: the claim says the merge step invokes ffmpeg with a fixed
argument list; in the code the merge step raises `NameError` at
`requests.get` before the `cmd` list is built and `subprocess` is also
undefined, so ffmpeg is never invoked — though the dead `cmd` literal in the
source does spell exactly the fixed argument list of the claim. -/
theorem ffmpeg_never_invoked :
    (∀ v a s, ffmpeg_merge v a s =
        (([] : List ApiCall), Except.error nameErrorRequests)) ∧
    (∀ ffp raw a s out, ffmpeg_cmd ffp raw a s out = ffmpeg_cmd_spec ffp raw a s out) :=
  ⟨fun _ _ _ => rfl, fun _ _ _ _ _ => rfl⟩

/-- Claim C8: `create_srt` writes one entry per `". "`-separated segment; the
i-th entry (0-based) is numbered `i+1`, runs from `2*i` to `2*i+2` seconds,
and both timestamps are rendered in the seconds field of the `00:00:SS,000`
pattern even beyond 59 — the 30th entry of a long script ends at
`00:00:60,000` and the minutes field stays `00`. -/
theorem create_srt_entries_spec :
    (∀ script, create_srt_content script = srt_entries 0 (pySplitDotSpace script)) ∧
    srt_entry 29 "The end" = "30\n00:00:58,000 --> 00:00:60,000\nThe end\n\n" ∧
    fmt02 60 = "60" := by
  refine ⟨?_, by decide, by decide⟩
  intro script
  unfold create_srt_content
  rw [show (pySplitDotSpace script).enum = List.enumFrom 0 (pySplitDotSpace script) from rfl,
    show ((("" : String), (0 : Nat))) = (("" : String), 2 * 0) from rfl,
    create_srt_fold (pySplitDotSpace script) 0 ""]
  simp [String.empty_append]

/-- Claim C9 counterexample: even in an environment whose mocked
`generateContent` response has status 200, `generate_script` raises (the
`NameError` on `key`) and issues no call at all — refuting both directions
of the claim: it raises although the status is 200, and on status 200 it
does not return the stripped candidate text. -/
theorem generate_script_raises_on_200 :
    (envOk.gemini (gemini_prompt "d" "p" "en")).status = 200 ∧
    generate_script envOk "d" "p" "en" =
      (([] : List ApiCall), Except.error nameErrorKey) := by
  decide

/-- Claim C9 (amended): `generate_script` raises unconditionally — the
headers f-string reads the undefined global `key` (and `requests` and
`HTTPException` are never imported), so every call fails with the same
`NameError` before the `generateContent` POST is issued, regardless of any
HTTP status; the result is independent of every mocked response, and
everything after that line — the status check, the `return` of the stripped
text, and the SDK-based call after the `return` — is unreachable on every
execution path. -/
theorem generate_script_always_raises :
    (∀ env d p l, generate_script env d p l =
        (([] : List ApiCall), Except.error nameErrorKey)) ∧
    (∀ env env2 d p l, generate_script env d p l = generate_script env2 d p l) :=
  ⟨fun _ _ _ _ => rfl, fun _ _ _ _ _ => rfl⟩

/-- Claim C10: the claim describes the `video_url` of successful requests; in
the code no request succeeds, so no `video_url` is ever returned — and the
dead URL expression itself (main.py:252-257) tests the hostname with Python
truthiness, giving the relative form for a set-but-empty
`RENDER_EXTERNAL_HOSTNAME`, the absolute form for a non-empty one, and the
relative form when unset. -/
theorem video_url_unreachable :
    (∀ (env : Env) (fuel : Nat) (data : RequestData),
      responseLookup (generate env fuel data) "video_url" = none) ∧
    public_video_url (some "") "/tmp/veo_a.mp4" = "/videos/veo_a.mp4" ∧
    public_video_url (some "myhost") "/tmp/veo_a.mp4" =
      "https://myhost/videos/veo_a.mp4" ∧
    public_video_url none "/tmp/veo_a.mp4" = "/videos/veo_a.mp4" :=
  ⟨fun _ _ _ => rfl, by decide, by decide, by decide⟩

end MedtechAI
